import Mathlib

/-!
Verification development for the `SignaturePricingCalculator` component
(email-signature pricing calculator with Shopify variant resolution).

The component's core logic is shallowly embedded below:
JavaScript numbers are modelled as `Option ℚ` (with `none` standing for
`NaN`; every arithmetic or comparison primitive propagates / rejects
`none` exactly as JavaScript propagates `NaN`), machine strings as
`String`, arrays as `List`, and nullable values as `Option`.
`Number.parseInt` / `Number.parseFloat` are modelled by executable
parsers below (non-finite results such as `Infinity` are folded into
`none`, which no theorem in this file exercises).
-/

/-! ## JavaScript string and number primitives -/

/-- Character-level decimal-digit test. -/
def isDigitChar (c : Char) : Bool :=
  decide ('0' ≤ c) && decide (c ≤ '9')

/-- Numeric value of a decimal digit character. -/
def digitVal (c : Char) : ℕ :=
  c.toNat - '0'.toNat

/-- Split a character list into its longest leading run of decimal digits
(as numeric values) and the remaining characters. -/
def takeDigits : List Char → List ℕ × List Char
  | [] => ([], [])
  | c :: cs =>
    if isDigitChar c then
      let p := takeDigits cs
      (digitVal c :: p.1, p.2)
    else ([], c :: cs)

/-- Value of a digit run read in base 10. -/
def digitsToNat (ds : List ℕ) : ℕ :=
  ds.foldl (fun a d => 10 * a + d) 0

/-- Skip the leading whitespace that JavaScript's numeric parsers skip. -/
def skipWs (cs : List Char) : List Char :=
  cs.dropWhile (fun c => c = ' ' || c = '\t' || c = '\n' || c = '\r')

/-- Consume an optional sign; the boolean is true when the sign is minus. -/
def parseSign : List Char → Bool × List Char
  | '-' :: cs => (true, cs)
  | '+' :: cs => (false, cs)
  | cs => (false, cs)

/-- Model of `Number.parseInt(s, 10)`: skip whitespace, read an optional
sign and then the longest run of decimal digits; `none` models `NaN`
(returned when no digit is present). -/
def jsParseInt (s : String) : Option ℤ :=
  let cs := skipWs s.toList
  let sg := parseSign cs
  let p := takeDigits sg.2
  if p.1.isEmpty then none
  else some ((if sg.1 then -1 else 1) * (digitsToNat p.1 : ℤ))

/-- Model of `Number.parseFloat`: skip whitespace, read an optional sign,
a digit run, an optional fractional part and an optional exponent part
(the exponent marker is ignored when no exponent digits follow, as in
JavaScript). `none` models `NaN`. -/
def jsParseFloat (s : String) : Option ℚ :=
  let cs := skipWs s.toList
  let sg := parseSign cs
  let ip := takeDigits sg.2
  let fp := match ip.2 with
    | '.' :: rest => takeDigits rest
    | other => ([], other)
  if ip.1.isEmpty && fp.1.isEmpty then none
  else
    let mantNum : ℤ := (digitsToNat ip.1 * 10 ^ fp.1.length + digitsToNat fp.1 : ℕ)
    let mantDen : ℕ := 10 ^ fp.1.length
    let expo : ℤ := match fp.2 with
      | e :: rest =>
        if e = 'e' ∨ e = 'E' then
          let esg := parseSign rest
          let ep := takeDigits esg.2
          if ep.1.isEmpty then 0
          else (if esg.1 then -1 else 1) * (digitsToNat ep.1 : ℤ)
        else 0
      | [] => 0
    let v : ℚ :=
      if 0 ≤ expo then mkRat (mantNum * 10 ^ expo.toNat) mantDen
      else mkRat mantNum (mantDen * 10 ^ (-expo).toNat)
    some (if sg.1 then -v else v)

/-- Boolean test that `pat` is an initial segment of `l`. -/
def isPrefixB : List Char → List Char → Bool
  | [], _ => true
  | _ :: _, [] => false
  | p :: ps, c :: cs => p = c && isPrefixB ps cs

/-- Boolean test that `pat` occurs contiguously inside `l`. -/
def subIncl (pat : List Char) : List Char → Bool
  | [] => isPrefixB pat []
  | c :: cs => isPrefixB pat (c :: cs) || subIncl pat cs

/-- Model of JavaScript `s.includes(pat)`. -/
def strIncludes (s pat : String) : Bool :=
  subIncl pat.toList s.toList

/-- Model of JavaScript `s.toLowerCase()` on the ASCII identifiers used here. -/
def strToLower (s : String) : String :=
  String.mk (s.toList.map Char.toLower)

/-- Model of a JavaScript `<=` comparison against a real constant: `none`
(`NaN`) compares false, as every `NaN` comparison does. -/
def jsLeNum (x : Option ℚ) (b : ℚ) : Bool :=
  match x with
  | none => false
  | some q => decide (q ≤ b)

/-- Model of JavaScript `+` on numbers: `NaN` absorbs. -/
def jsAddNum (a b : Option ℚ) : Option ℚ :=
  match a, b with
  | some x, some y => some (x + y)
  | _, _ => none

/-- Model of `Math.round`: `floor(x + 0.5)` on finite inputs, `NaN` absorbs. -/
def jsMathRound (x : Option ℚ) : Option ℤ :=
  match x with
  | none => none
  | some q => some ⌊q + 1 / 2⌋

/-! ## Data model

`ShopifyProduct` and its variants are the external catalog shape the
component consumes (the exact TypeScript interface lives outside this
repository; option lists and handles are modelled as optional because the
component guards them with truthiness checks). `PricingOption` is the
component's own interface (source lines 30-36). -/

/-- One name/value option pair on a variant, e.g. `User Count` / `"25"`. -/
structure SelectedOption where
  name : String
  value : String
deriving DecidableEq

/-- A purchasable catalog variant. The price arrives as a decimal string
(`priceV2.amount`); `selectedOptions` is optional because the component
defends against its absence (source lines 303, 318, 347). -/
structure Variant where
  id : String
  title : String
  price : String
  available : Bool
  selectedOptions : Option (List SelectedOption)
deriving DecidableEq

/-- A catalog product with its ordered variant list. -/
structure ShopifyProduct where
  id : String
  title : String
  description : String
  handle : Option String
  variants : List Variant
deriving DecidableEq

/-- The component's `PricingOption` interface (source lines 30-36); the
price is a JavaScript number, hence `Option ℚ`. -/
structure PricingOption where
  id : String
  name : String
  description : String
  price : Option ℚ
  handle : Option String
deriving DecidableEq

/-- Fixed per-user rate (source line 45). -/
def USER_PRICE : ℚ := 50

/-! ## Tier classifier (source lines 229-252, `getDisplayTitle`)

The source is a chain of early returns; each stage is embedded as an
`Option String` producer and the stages are joined with `Option.getD`. -/

/-- Stage 1 of `getDisplayTitle` (source lines 231-235): substring checks
on the handle, guarded by the handle's truthiness (`if (option.handle)`),
in source order starter, custom, premium. -/
def handleLabel (o : PricingOption) : Option String :=
  match o.handle with
  | none => none
  | some h =>
    if h = "" then none
    else if strIncludes h "starter" then some "Starter"
    else if strIncludes h "custom" then some "Essential"
    else if strIncludes h "premium" then some "Premium"
    else none

/-- Stage 2 of `getDisplayTitle` (source lines 238-241): substring checks
on the lower-cased id. -/
def idLabel (o : PricingOption) : Option String :=
  let idl := strToLower o.id
  if strIncludes idl "starter" then some "Starter"
  else if strIncludes idl "custom" || strIncludes idl "essential" then some "Essential"
  else if strIncludes idl "premium" then some "Premium"
  else none

/-- Stage 3 of `getDisplayTitle` (source lines 244-246): exact display-name
match. -/
def nameLabel (o : PricingOption) : Option String :=
  if o.name = "Starter" ∨ o.name = "Essential" ∨ o.name = "Premium" then some o.name
  else none

/-- Stage 4 of `getDisplayTitle` (source lines 249-251): price-band
fallback; a `NaN` price fails both comparisons and yields Premium, as in
JavaScript. -/
def priceLabel (o : PricingOption) : String :=
  if jsLeNum o.price 950 then "Starter"
  else if jsLeNum o.price 1450 then "Essential"
  else "Premium"

/-- The tier classifier `getDisplayTitle` (source lines 229-252). -/
def getDisplayTitle (o : PricingOption) : String :=
  (handleLabel o).getD ((idLabel o).getD ((nameLabel o).getD (priceLabel o)))

/-! ## Variant resolver (source lines 264-338, `findVariantForUserCount`) -/

/-- Hardcoded Starter custom-quote variant id (source line 292). -/
def starterQuoteId : String := "gid://shopify/ProductVariant/44872043167929"

/-- Hardcoded Essential custom-quote variant id (source line 289). -/
def essentialQuoteId : String := "gid://shopify/ProductVariant/44872056373433"

/-- Hardcoded Premium custom-quote variant id (source line 286). -/
def premiumQuoteId : String := "gid://shopify/ProductVariant/44872062795961"

/-- The large-order variant-id table (source lines 284-293); `none` models
falling through all three branches. -/
def customQuoteId (productType : String) : Option String :=
  if productType = "Premium" then some premiumQuoteId
  else if productType = "Essential" then some essentialQuoteId
  else if productType = "Starter" then some starterQuoteId
  else none

/-- The `PricingOption` the resolver builds for classification in its
large-order branch (source lines 275-281); the price is the constant `0`
and `description || ""` is the identity on strings. -/
def resolverTierInput (p : ShopifyProduct) : PricingOption :=
  { id := p.id
    name := p.title
    description := p.description
    price := some 0
    handle := p.handle }

/-- Exact-match lookup (source lines 302-307): the first variant, in
source order, carrying an option named `User Count` whose value equals
the decimal string of the requested count. -/
def exactMatchVariant (variants : List Variant) (userCount : ℤ) : Option Variant :=
  variants.find? (fun v =>
    match v.selectedOptions with
    | none => false
    | some opts => opts.any (fun o => o.name == "User Count" && o.value == toString userCount))

/-- Helper `extractUserCount` (source lines 346-354): the parsed `User
Count` option of a variant, defaulting to 0 when missing or unparseable. -/
def extractUserCount (v : Variant) : ℤ :=
  match v.selectedOptions with
  | none => 0
  | some opts =>
    match opts.find? (fun o => o.name == "User Count") with
    | none => 0
    | some o =>
      match jsParseInt o.value with
      | none => 0
      | some c => c

/-- Filter predicate of the closest-match step (source lines 317-323):
the variant's `User Count` option exists, parses, and is at most the
requested count. -/
def validForCount (userCount : ℤ) (v : Variant) : Bool :=
  match v.selectedOptions with
  | none => false
  | some opts =>
    match opts.find? (fun o => o.name == "User Count") with
    | none => false
    | some o =>
      match jsParseInt o.value with
      | none => false
      | some c => decide (c ≤ userCount)

/-- Stable insertion used by `sortByCountDesc`: the inserted element goes
before every later element whose key is not larger. -/
def insertByCountDesc (key : Variant → ℤ) (a : Variant) : List Variant → List Variant
  | [] => [a]
  | b :: bs => if key b ≤ key a then a :: b :: bs else b :: insertByCountDesc key a bs

/-- Model of the stable descending sort at source lines 324-328
(`Array.prototype.sort` with comparator `bCount - aCount`; the ECMAScript
sort is stable, so it is extensionally the stable insertion sort below). -/
def sortByCountDesc (key : Variant → ℤ) : List Variant → List Variant
  | [] => []
  | a :: rest => insertByCountDesc key a (sortByCountDesc key rest)

/-- The variant resolver `findVariantForUserCount` (source lines 264-338).
Products without variants resolve to `none` (lines 265-268); counts above
50 use the custom-quote table on the classification of the product with
price 0 (lines 271-297); otherwise exact match, then closest match below
(where `validVariants[0]?.id || null` coerces an empty-string id to null,
line 332), then the first variant (line 337). -/
def findVariantForUserCount (p : ShopifyProduct) (userCount : ℤ) : Option String :=
  match p.variants with
  | [] => none
  | v0 :: _ =>
    if 50 < userCount then
      match customQuoteId (getDisplayTitle (resolverTierInput p)) with
      | some cq => some cq
      | none => some v0.id
    else
      match exactMatchVariant p.variants userCount with
      | some m => some m.id
      | none =>
        match sortByCountDesc extractUserCount (p.variants.filter (validForCount userCount)) with
        | [] => some v0.id
        | w :: _ => if w.id = "" then none else some w.id

/-! ## Catalog normalizer (source lines 182-205) -/

/-- The product-formatting effect (source lines 187-198): one
`PricingOption` per product, in order, whose price is the parsed price of
the first variant, or the number 0 when the product has no variants. -/
def formatPackages (products : List ShopifyProduct) : List PricingOption :=
  products.map (fun product =>
    { id := product.id
      name := product.title
      description := product.description
      price := match product.variants with
        | [] => some 0
        | v :: _ => jsParseFloat v.price
      handle := product.handle })

/-! ## Price calculator (source lines 208-221) and deposit display -/

/-- The two derived price fields the calculator effect writes. -/
structure CalcState where
  totalPrice : Option ℚ
  isCustomPricing : Bool
deriving DecidableEq

/-- The price-calculation effect (source lines 208-221), as a transformer
of the derived state: with no matching package only `totalPrice` is reset
to 0; above 50 users only the custom-pricing flag is set; otherwise both
fields are written. -/
def priceEffect (packages : List PricingOption) (selectedAnimation : String)
    (userCount : ℤ) (s : CalcState) : CalcState :=
  match packages.find? (fun pk => pk.id == selectedAnimation) with
  | none => { s with totalPrice := some 0 }
  | some pkg =>
    if 50 < userCount then { s with isCustomPricing := true }
    else { totalPrice := jsAddNum pkg.price (some (USER_PRICE * (userCount : ℚ)))
           isCustomPricing := false }

/-- The deposit figure rendered at source line 622:
`Math.round(totalPrice / 2)`. -/
def depositDisplay (totalPrice : Option ℚ) : Option ℤ :=
  jsMathRound (totalPrice.map (fun q => q / 2))

/-! ## Checkout handoff (source lines 364-411, `handleGetStarted`) -/

/-- The cart object returned by the external `createCart` call. -/
structure Cart where
  checkoutUrl : String
deriving DecidableEq

/-- The external `createCart` interface: variant id, quantity, custom
attributes, selling-plan id; failures are surfaced as errors. -/
def CartOracle : Type :=
  String → ℤ → List (String × String) → String → Except String Cart

/-- The selection state of the component session. -/
structure SelectionState where
  selectedAnimation : String
  userCount : ℤ
  totalPrice : Option ℚ
  isCustomPricing : Bool
deriving DecidableEq

/-- The component state touched by `handleGetStarted`. -/
structure ComponentState where
  selection : SelectionState
  animationPackages : List PricingOption
  products : Option (List ShopifyProduct)
  isSubmitting : Bool
  error : Option String
deriving DecidableEq

/-- Hardcoded selling-plan id for the 50% deposit (source line 398). -/
def sellingPlanId : String := "gid://shopify/SellingPlan/3226403001"

/-- Lookup of the selected product (source line 376, `products?.find`). -/
def jsFindProduct (products : Option (List ShopifyProduct)) (sel : String) :
    Option ShopifyProduct :=
  products.bind (fun ps => ps.find? (fun p => p.id == sel))

/-- The try-block of `handleGetStarted` (source lines 368-404): package
lookup, product lookup, variant resolution (where both `null` and the
falsy empty-string id trigger the throw at line 384), cart creation, and
the checkout URL on success. -/
def getStartedResult (st : ComponentState) (cc : CartOracle) : Except String String :=
  match st.animationPackages.find? (fun pk => pk.id == st.selection.selectedAnimation) with
  | none => Except.error "Selected package not found"
  | some _ =>
    match jsFindProduct st.products st.selection.selectedAnimation with
    | none => Except.error "Product not found"
    | some product =>
      match findVariantForUserCount product st.selection.userCount with
      | none => Except.error "No variant found for user count"
      | some variantId =>
        if variantId = "" then Except.error "No variant found for user count"
        else
          match cc variantId 1 [("User Count", toString st.selection.userCount)] sellingPlanId with
          | Except.error e => Except.error e
          | Except.ok cart => Except.ok cart.checkoutUrl

/-- The full `handleGetStarted` handler (source lines 364-411): the final
component state (submission re-enabled by the finally-block, error set by
the catch-block) paired with the redirect target, `none` when no redirect
happens. -/
def handleGetStarted (st : ComponentState) (cc : CartOracle) :
    ComponentState × Option String :=
  match getStartedResult st cc with
  | Except.ok url => ({ st with isSubmitting := false, error := none }, some url)
  | Except.error e =>
    ({ st with isSubmitting := false, error := some ("Error: " ++ e) }, none)

/-! ## User-count state machine (source lines 55, 554-587) -/

/-- The three user interactions that mutate `userCount`. -/
inductive CountEvent where
  | dec : CountEvent
  | inc : CountEvent
  | input : String → CountEvent

/-- One `userCount` transition: the decrement button (source line 558),
the increment button (line 581), and the numeric input's change handler
(lines 569-574, ignoring unparseable input). -/
def countStep (c : ℤ) : CountEvent → ℤ
  | CountEvent.dec => max 1 (c - 1)
  | CountEvent.inc => c + 1
  | CountEvent.input s =>
    match jsParseInt s with
    | none => c
    | some v => max 1 v

/-- Initial `userCount` (source line 55). -/
def initialUserCount : ℤ := 1

/-- The `userCount` value after a sequence of interactions. -/
def userCountAfter (evs : List CountEvent) : ℤ :=
  evs.foldl countStep initialUserCount

/-! ## Reference definitions written from the spec's words

`specResolver` follows section 4.4 steps 2-4 of the spec literally, for
comparison with `findVariantForUserCount`; `specResolverCoerced` is the
same definition with the single empty-identifier coercion the source
performs at its closest-match step. -/

/-- Option list of a variant; a missing option set has no options. -/
def optionsOf (v : Variant) : List SelectedOption :=
  v.selectedOptions.getD []

/-- Spec step 2: the first variant, in source order, with an option named
`User Count` whose value equals the decimal string of the count. -/
def specExactVariant (variants : List Variant) (userCount : ℤ) : Option Variant :=
  variants.find? (fun v =>
    (optionsOf v).any (fun o => o.name == "User Count" && o.value == toString userCount))

/-- Spec notion of a variant's parsed `User Count` option: the value of
its `User Count` option when present and parseable, and nothing
otherwise. -/
def specCount (v : Variant) : Option ℤ :=
  ((optionsOf v).find? (fun o => o.name == "User Count")).bind (fun o => jsParseInt o.value)

/-- Spec step 3 candidate set: variants with a parseable `User Count`
option whose numeric value is at most the requested count. -/
def specEligible (variants : List Variant) (userCount : ℤ) : List Variant :=
  variants.filter (fun v =>
    match specCount v with
    | some c => decide (c ≤ userCount)
    | none => false)

/-- First element attaining the greatest key, ties broken by source
order (the earlier element wins). -/
def firstMaxBy (key : Variant → ℤ) : List Variant → Option Variant
  | [] => none
  | v :: vs =>
    match firstMaxBy key vs with
    | none => some v
    | some m => if key m ≤ key v then some v else some m

/-- Sort key used by the spec's closest-match step (the parsed count;
only applied to eligible variants, where it is always present). -/
def specKey (v : Variant) : ℤ :=
  (specCount v).getD 0

/-- Reference resolver for counts of at most 50, written from the spec's
words (section 4.4 steps 2-4): exact match first, then the greatest
parseable count at most the requested count with ties broken by source
order, then the first variant. -/
def specResolver (p : ShopifyProduct) (userCount : ℤ) : Option String :=
  match p.variants with
  | [] => none
  | v0 :: _ =>
    match specExactVariant p.variants userCount with
    | some m => some m.id
    | none =>
      match firstMaxBy specKey (specEligible p.variants userCount) with
      | some w => some w.id
      | none => some v0.id

/-- The reference resolver amended by the one behaviour the source adds:
at the closest-match step an empty-string winner id is coerced to null
(source line 332, `validVariants[0]?.id || null`). -/
def specResolverCoerced (p : ShopifyProduct) (userCount : ℤ) : Option String :=
  match p.variants with
  | [] => none
  | v0 :: _ =>
    match specExactVariant p.variants userCount with
    | some m => some m.id
    | none =>
      match firstMaxBy specKey (specEligible p.variants userCount) with
      | some w => if w.id = "" then none else some w.id
      | none => some v0.id

/-- Absence of any metadata-based classification rule for the product:
no handle rule, no id rule, no name rule fires on the pricing option the
resolver builds for it. -/
def noMetadataMatch (p : ShopifyProduct) : Prop :=
  handleLabel (resolverTierInput p) = none ∧
  idLabel (resolverTierInput p) = none ∧
  nameLabel (resolverTierInput p) = none

instance (p : ShopifyProduct) : Decidable (noMetadataMatch p) := by
  unfold noMetadataMatch
  infer_instance

/-! ## Concrete inputs used by counterexamples and witnesses -/

/-- A product with no variants at all. -/
def c1EmptyProduct : ShopifyProduct :=
  { id := "gid://shopify/Product/1", title := "Starter", description := ""
    handle := some "starter-signature", variants := [] }

/-- The sole variant of the `Deluxe` product, priced 1200. -/
def c1DeluxeVariant : Variant :=
  { id := "v1", title := "Default", price := "1200", available := true
    selectedOptions := some [] }

/-- A product matching no metadata rule whose base price (1200) places it
in the Essential price band of section 4.2. -/
def c1DeluxeProduct : ShopifyProduct :=
  { id := "gid://shopify/Product/777", title := "Deluxe", description := ""
    handle := some "deluxe-signature", variants := [c1DeluxeVariant] }

/-- The pricing tier the normalizer derives from `c1DeluxeProduct`. -/
def c1DeluxeTier : PricingOption :=
  { id := "gid://shopify/Product/777", name := "Deluxe", description := ""
    price := some 1200, handle := some "deluxe-signature" }

/-- A variant whose identifier is the empty string and whose `User Count`
option is 1. -/
def c2EmptyIdVariant : Variant :=
  { id := "", title := "t", price := "10", available := true
    selectedOptions := some [{ name := "User Count", value := "1" }] }

/-- A one-variant product whose sole variant has an empty identifier. -/
def c2EmptyIdProduct : ShopifyProduct :=
  { id := "p", title := "T", description := "", handle := some "h"
    variants := [c2EmptyIdVariant] }

/-- A second copy of the empty-identifier scenario, for the resolver
failure analysis. -/
def c5EmptyIdProduct : ShopifyProduct :=
  { id := "p5", title := "T5", description := "", handle := some "h5"
    variants := [{ id := "", title := "t5", price := "10", available := true
                   selectedOptions := some [{ name := "User Count", value := "1" }] }] }

/-- A well-formed variant priced 800 for one user. -/
def wfVariant : Variant :=
  { id := "v9", title := "1 user", price := "800", available := true
    selectedOptions := some [{ name := "User Count", value := "1" }] }

/-- A well-formed one-variant product used by witnesses. -/
def wfProduct : ShopifyProduct :=
  { id := "gid://shopify/Product/9", title := "Starter", description := "d"
    handle := some "starter-signature"
    variants := [wfVariant] }

/-- The pricing option the normalizer derives from `wfProduct`. -/
def wfPackage : PricingOption :=
  { id := "gid://shopify/Product/9", name := "Starter", description := "d"
    price := some 800, handle := some "starter-signature" }

/-- A component state pointing at `wfProduct` with one user selected. -/
def wfState : ComponentState :=
  { selection := { selectedAnimation := "gid://shopify/Product/9", userCount := 1
                   totalPrice := some 850, isCustomPricing := false }
    animationPackages := [wfPackage]
    products := some [wfProduct]
    isSubmitting := false
    error := none }

/-- A cart oracle that always fails, modelling a checkout-creation
failure. -/
def failingOracle : CartOracle :=
  fun _ _ _ _ => Except.error "network down"

/-- The pricing tier the normalizer derives from `c1EmptyProduct`. -/
def c1EmptyPackage : PricingOption :=
  { id := "gid://shopify/Product/1", name := "Starter", description := ""
    price := some 0, handle := some "starter-signature" }

/-- A component state whose selected product has no variants. -/
def emptyVariantState : ComponentState :=
  { selection := { selectedAnimation := "gid://shopify/Product/1", userCount := 10
                   totalPrice := some 0, isCustomPricing := false }
    animationPackages := [c1EmptyPackage]
    products := some [c1EmptyProduct]
    isSubmitting := false
    error := none }

/-- A pricing option whose handle contains `premium` and neither
`starter` nor `custom`. -/
def c6Option : PricingOption :=
  { id := "i", name := "n", description := "", price := some 9999
    handle := some "premium-sig" }

/-! ## Helper lemmas -/

/-- The handle stage of the classifier yields one of the three labels or
nothing. -/
theorem handleLabel_cases (o : PricingOption) :
    handleLabel o = none ∨ handleLabel o = some "Starter" ∨
    handleLabel o = some "Essential" ∨ handleLabel o = some "Premium" := by
  unfold handleLabel
  split
  · exact Or.inl rfl
  · split_ifs <;> simp

/-- The id stage of the classifier yields one of the three labels or
nothing. -/
theorem idLabel_cases (o : PricingOption) :
    idLabel o = none ∨ idLabel o = some "Starter" ∨
    idLabel o = some "Essential" ∨ idLabel o = some "Premium" := by
  unfold idLabel
  dsimp only
  split_ifs <;> simp

/-- The name stage of the classifier yields one of the three labels or
nothing. -/
theorem nameLabel_cases (o : PricingOption) :
    nameLabel o = none ∨ nameLabel o = some "Starter" ∨
    nameLabel o = some "Essential" ∨ nameLabel o = some "Premium" := by
  unfold nameLabel
  split_ifs with h
  · rcases h with h | h | h <;> simp [h]
  · exact Or.inl rfl

/-- The price stage of the classifier yields one of the three labels. -/
theorem priceLabel_cases (o : PricingOption) :
    priceLabel o = "Starter" ∨ priceLabel o = "Essential" ∨ priceLabel o = "Premium" := by
  unfold priceLabel
  split_ifs <;> simp

/-- The classifier always produces one of the three canonical labels. -/
theorem getDisplayTitle_mem (o : PricingOption) :
    getDisplayTitle o = "Starter" ∨ getDisplayTitle o = "Essential" ∨
    getDisplayTitle o = "Premium" := by
  unfold getDisplayTitle
  rcases handleLabel_cases o with h | h | h | h <;>
    rcases idLabel_cases o with h2 | h2 | h2 | h2 <;>
      rcases nameLabel_cases o with h3 | h3 | h3 | h3 <;>
        rcases priceLabel_cases o with h4 | h4 | h4 <;>
          simp [h, h2, h3, h4]

/-- The custom-quote table is total on classifier outputs. -/
theorem customQuoteId_of_title (o : PricingOption) :
    customQuoteId (getDisplayTitle o) = some premiumQuoteId ∨
    customQuoteId (getDisplayTitle o) = some essentialQuoteId ∨
    customQuoteId (getDisplayTitle o) = some starterQuoteId := by
  rcases getDisplayTitle_mem o with h | h | h <;> rw [h] <;> decide

/-- Above 50 users the resolver of a product with a first variant returns
exactly the custom-quote id of the product classified with price 0. -/
theorem resolver_largeOrder (pid ptitle pdesc : String) (phandle : Option String)
    (v0 : Variant) (vs : List Variant) (u : ℤ) (hu : 50 < u) :
    findVariantForUserCount ⟨pid, ptitle, pdesc, phandle, v0 :: vs⟩ u =
      customQuoteId (getDisplayTitle
        (resolverTierInput ⟨pid, ptitle, pdesc, phandle, v0 :: vs⟩)) := by
  rcases customQuoteId_of_title
      (resolverTierInput ⟨pid, ptitle, pdesc, phandle, v0 :: vs⟩) with h | h | h <;>
    simp [findVariantForUserCount, hu, h]

/-- Membership in the stable insertion is membership in the inserted
element or the list. -/
theorem mem_insertByCountDesc (key : Variant → ℤ) (a x : Variant) (l : List Variant) :
    x ∈ insertByCountDesc key a l ↔ x = a ∨ x ∈ l := by
  induction l with
  | nil => simp [insertByCountDesc]
  | cons b bs ih =>
    unfold insertByCountDesc
    split_ifs with h
    · simp [List.mem_cons]
    · simp only [List.mem_cons, ih]
      tauto

/-- The stable sort neither adds nor removes elements. -/
theorem mem_sortByCountDesc (key : Variant → ℤ) (x : Variant) (l : List Variant) :
    x ∈ sortByCountDesc key l ↔ x ∈ l := by
  induction l with
  | nil => simp [sortByCountDesc]
  | cons a rest ih =>
    simp [sortByCountDesc, mem_insertByCountDesc, ih, List.mem_cons]

/-- The head of the stable descending sort is the first element attaining
the greatest key. -/
theorem head?_sortByCountDesc (key : Variant → ℤ) (l : List Variant) :
    (sortByCountDesc key l).head? = firstMaxBy key l := by
  induction l with
  | nil => rfl
  | cons a rest ih =>
    simp only [sortByCountDesc, firstMaxBy, ← ih]
    cases hs : sortByCountDesc key rest with
    | nil => simp [insertByCountDesc]
    | cons b bs => by_cases h : key b ≤ key a <;> simp [insertByCountDesc, h]

/-- The closest-match filter of the source coincides with the spec's
eligibility condition. -/
theorem validForCount_eq (u : ℤ) (v : Variant) :
    validForCount u v = (match specCount v with
      | some c => decide (c ≤ u)
      | none => false) := by
  unfold validForCount specCount optionsOf
  cases v.selectedOptions with
  | none => rfl
  | some opts =>
    cases h : opts.find? (fun o => o.name == "User Count") with
    | none => simp [h]
    | some o => cases hp : jsParseInt o.value <;> simp [h, hp]

/-- Filtering by the source predicate is the spec's eligible set. -/
theorem filter_validForCount_eq (variants : List Variant) (u : ℤ) :
    variants.filter (validForCount u) = specEligible variants u := by
  unfold specEligible
  congr 1
  funext v
  exact validForCount_eq u v

/-- The source's exact-match search is the spec's exact-match search. -/
theorem exactMatch_eq (variants : List Variant) (u : ℤ) :
    exactMatchVariant variants u = specExactVariant variants u := by
  unfold exactMatchVariant specExactVariant
  congr 1
  funext v
  cases h : v.selectedOptions <;> simp [optionsOf, h]

/-- The source's count extraction is the spec's sort key. -/
theorem extract_eq_specKey (v : Variant) : extractUserCount v = specKey v := by
  unfold extractUserCount specKey specCount optionsOf
  cases v.selectedOptions with
  | none => rfl
  | some opts =>
    cases h : opts.find? (fun o => o.name == "User Count") with
    | none => simp [h]
    | some o => cases hp : jsParseInt o.value <;> simp [h, hp]

/-! ## Claim theorems -/

/-- Claim C3: for a selected tier with base price `p` and a user count
`u` with `1 ≤ u ≤ 50`, the price calculator writes total `p + 50·u` with
the custom-quote flag false, and the displayed deposit is `round` of half
the total. -/
theorem c3_price (packages : List PricingOption) (sel : String) (u : ℤ) (p : ℚ)
    (s : CalcState) (pkg : PricingOption)
    (hfind : packages.find? (fun pk => pk.id == sel) = some pkg)
    (hp : pkg.price = some p) (h1 : 1 ≤ u) (h2 : u ≤ 50) :
    priceEffect packages sel u s =
      { totalPrice := some (p + 50 * (u : ℚ)), isCustomPricing := false } ∧
    depositDisplay (some (p + 50 * (u : ℚ))) =
      some (round ((p + 50 * (u : ℚ)) / 2)) := by
  constructor
  · simp only [priceEffect, hfind]
    rw [if_neg (by omega : ¬ 50 < u)]
    simp [jsAddNum, hp, USER_PRICE]
  · unfold depositDisplay jsMathRound
    simp [round_eq]

/-- Witness for C3 at the scenario of spec section 8: base price 800, one
user, total 850, deposit 425. -/
theorem c3_price_witness :
    [wfPackage].find? (fun pk => pk.id == "gid://shopify/Product/9") = some wfPackage ∧
    priceEffect [wfPackage] "gid://shopify/Product/9" 1
        { totalPrice := some 0, isCustomPricing := false } =
      { totalPrice := some (800 + 50 * ((1 : ℤ) : ℚ)), isCustomPricing := false } ∧
    depositDisplay (some (800 + 50 * ((1 : ℤ) : ℚ))) =
      some (round ((800 + 50 * ((1 : ℤ) : ℚ)) / 2)) :=
  ⟨by decide, c3_price [wfPackage] "gid://shopify/Product/9" 1 800
      { totalPrice := some 0, isCustomPricing := false } wfPackage
      (by decide) rfl (by decide) (by decide)⟩

/-- Counterexample to claim C4 as stated: with no matching tier the
effect resets the total to 0 but does not reset the custom-quote flag, so
a prior true flag survives. -/
theorem c4_counterexample :
    ([] : List PricingOption).find? (fun pk => pk.id == "x") = none ∧
    priceEffect [] "x" 1 { totalPrice := some 5, isCustomPricing := true } ≠
      { totalPrice := some 0, isCustomPricing := false } :=
  ⟨rfl, by decide⟩

/-- Claim C4 (amended): whenever no tier is selected the calculator
produces total 0 and leaves the custom-quote flag at its previous value,
for every prior state and every user count. -/
theorem c4_amended (packages : List PricingOption) (sel : String) (u : ℤ)
    (s : CalcState)
    (hfind : packages.find? (fun pk => pk.id == sel) = none) :
    priceEffect packages sel u s =
      { totalPrice := some 0, isCustomPricing := s.isCustomPricing } := by
  unfold priceEffect
  rw [hfind]

/-- Witness for the amended C4: the prior custom-quote flag survives the
reset of the total. -/
theorem c4_amended_witness :
    ([] : List PricingOption).find? (fun pk => pk.id == "x") = none ∧
    priceEffect [] "x" 7 { totalPrice := some 5, isCustomPricing := true } =
      { totalPrice := some 0, isCustomPricing := true } :=
  ⟨rfl, c4_amended [] "x" 7 { totalPrice := some 5, isCustomPricing := true } rfl⟩

/-- Counterexample to claim C6 as stated: a handle containing `premium`
does not always classify Premium, because the `custom` check runs first;
the handle `custom-premium` classifies Essential. -/
theorem c6_counterexample :
    strIncludes "custom-premium" "premium" = true ∧
    getDisplayTitle { id := "gid1", name := "X", description := ""
                      price := some 2000, handle := some "custom-premium" } = "Essential" ∧
    ("Essential" : String) ≠ "Premium" := by
  refine ⟨by decide, by decide, by decide⟩

/-- Claim C6 (amended): the classifier is a pure deterministic function,
and a pricing option whose handle contains `premium` but neither
`starter` nor `custom` classifies Premium regardless of its price. -/
theorem c6_amended (o o2 : PricingOption) (heq : o = o2) (h : String)
    (hhandle : o.handle = some h)
    (hprem : strIncludes h "premium" = true)
    (hstar : strIncludes h "starter" = false)
    (hcust : strIncludes h "custom" = false) :
    getDisplayTitle o = getDisplayTitle o2 ∧ getDisplayTitle o = "Premium" := by
  subst heq
  refine ⟨rfl, ?_⟩
  have hne : h ≠ "" := by
    intro he
    rw [he] at hprem
    exact absurd hprem (by decide)
  have hl : handleLabel o = some "Premium" := by
    unfold handleLabel
    rw [hhandle]
    simp [hne, hstar, hcust, hprem]
  simp [getDisplayTitle, hl]

/-- Witness for the amended C6 at the handle `premium-sig`. -/
theorem c6_amended_witness :
    strIncludes "premium-sig" "premium" = true ∧
    strIncludes "premium-sig" "starter" = false ∧
    strIncludes "premium-sig" "custom" = false ∧
    (getDisplayTitle c6Option = getDisplayTitle c6Option ∧
     getDisplayTitle c6Option = "Premium") :=
  ⟨by decide, by decide, by decide,
   c6_amended c6Option c6Option rfl "premium-sig" rfl (by decide) (by decide) (by decide)⟩

/-- One user-count transition preserves the lower bound 1. -/
theorem countStep_ge_one (c : ℤ) (hc : 1 ≤ c) (e : CountEvent) :
    1 ≤ countStep c e := by
  cases e with
  | dec => exact le_max_left 1 (c - 1)
  | inc => exact le_trans hc (by omega : c ≤ c + 1)
  | input s =>
    have hstep : countStep c (CountEvent.input s) =
        (match jsParseInt s with
         | none => c
         | some v => max 1 v) := rfl
    rw [hstep]
    cases jsParseInt s with
    | none => exact hc
    | some v => exact le_max_left 1 v

/-- Folding transitions from any count at least 1 stays at least 1. -/
theorem foldl_countStep_ge (evs : List CountEvent) :
    ∀ c : ℤ, 1 ≤ c → 1 ≤ evs.foldl countStep c := by
  induction evs with
  | nil => intro c hc; simpa using hc
  | cons e rest ih => intro c hc; exact ih (countStep c e) (countStep_ge_one c hc e)

/-- Claim C10: the user count starts at 1 and every reachable value after
any sequence of decrements, increments and direct numeric inputs is at
least 1. -/
theorem c10_user_count_invariant :
    initialUserCount = 1 ∧ ∀ evs : List CountEvent, 1 ≤ userCountAfter evs := by
  refine ⟨rfl, fun evs => ?_⟩
  exact foldl_countStep_ge evs initialUserCount (by norm_num [initialUserCount])

/-- Claim C8: the normalizer yields exactly one pricing tier per product,
preserving source order; each tier carries the product's metadata, its
base price is the decimal parse of the first variant's price string, and
it is the number 0 when the product has no variants. -/
theorem c8_normalizer (ps : List ShopifyProduct) :
    (formatPackages ps).length = ps.length ∧
    ∀ (i : ℕ) (hi : i < ps.length) (hi2 : i < (formatPackages ps).length),
      ((formatPackages ps).get ⟨i, hi2⟩).id = (ps.get ⟨i, hi⟩).id ∧
      ((formatPackages ps).get ⟨i, hi2⟩).name = (ps.get ⟨i, hi⟩).title ∧
      ((formatPackages ps).get ⟨i, hi2⟩).description = (ps.get ⟨i, hi⟩).description ∧
      ((formatPackages ps).get ⟨i, hi2⟩).handle = (ps.get ⟨i, hi⟩).handle ∧
      ((ps.get ⟨i, hi⟩).variants = [] →
        ((formatPackages ps).get ⟨i, hi2⟩).price = some 0) ∧
      ∀ v vs, (ps.get ⟨i, hi⟩).variants = v :: vs →
        ((formatPackages ps).get ⟨i, hi2⟩).price = jsParseFloat v.price := by
  constructor
  · simp [formatPackages]
  · intro i hi hi2
    simp only [formatPackages, List.get_eq_getElem, List.getElem_map]
    refine ⟨trivial, trivial, trivial, trivial, fun h => ?_, fun v vs h => ?_⟩ <;> simp [h]

/-- Witness for C8 on a two-product catalog: the zero-variant product
gets base price 0, the one-variant product gets its first variant's
parsed price, and order and length are preserved. -/
theorem c8_normalizer_witness :
    (formatPackages [c1EmptyProduct, wfProduct]).length =
      ([c1EmptyProduct, wfProduct] : List ShopifyProduct).length ∧
    ((formatPackages [c1EmptyProduct, wfProduct]).get ⟨0, by decide⟩).price = some 0 ∧
    ((formatPackages [c1EmptyProduct, wfProduct]).get ⟨1, by decide⟩).price =
      jsParseFloat wfVariant.price :=
  ⟨(c8_normalizer [c1EmptyProduct, wfProduct]).1,
   ((c8_normalizer [c1EmptyProduct, wfProduct]).2 0 (by decide) (by decide)).2.2.2.2.1 rfl,
   ((c8_normalizer [c1EmptyProduct, wfProduct]).2 1 (by decide) (by decide)).2.2.2.2.2
     wfVariant [] rfl⟩

/-- Claim C9: whenever the checkout handoff does not redirect (any
failure, including cart-creation failure), the selection state and the
cached catalog are left unchanged, an error is surfaced, and submission
is re-enabled. -/
theorem c9_checkout (st : ComponentState) (cc : CartOracle)
    (h : (handleGetStarted st cc).2 = none) :
    (handleGetStarted st cc).1.selection = st.selection ∧
    (handleGetStarted st cc).1.animationPackages = st.animationPackages ∧
    (handleGetStarted st cc).1.products = st.products ∧
    (handleGetStarted st cc).1.isSubmitting = false ∧
    (handleGetStarted st cc).1.error.isSome = true := by
  unfold handleGetStarted at h ⊢
  cases hres : getStartedResult st cc with
  | ok url =>
    rw [hres] at h
    simp at h
  | error e =>
    simp

/-- Witness for C9: a failing cart oracle on a fully valid selection
leaves the selection untouched, surfaces an error and re-enables
submission. -/
theorem c9_checkout_witness :
    (handleGetStarted wfState failingOracle).2 = none ∧
    ((handleGetStarted wfState failingOracle).1.selection = wfState.selection ∧
     (handleGetStarted wfState failingOracle).1.animationPackages = wfState.animationPackages ∧
     (handleGetStarted wfState failingOracle).1.products = wfState.products ∧
     (handleGetStarted wfState failingOracle).1.isSubmitting = false ∧
     (handleGetStarted wfState failingOracle).1.error.isSome = true) :=
  ⟨by decide, c9_checkout wfState failingOracle (by decide)⟩

/-- Counterexample to claim C1 as stated: a zero-variant product resolves
to null rather than a custom-quote id; and a product matching no metadata
rule whose tier has base price 1200 classifies Essential under section
4.2, yet the resolver returns the Starter custom-quote id, because it
classifies with price 0. -/
theorem c1_counterexample :
    findVariantForUserCount c1EmptyProduct 51 = none ∧
    formatPackages [c1DeluxeProduct] = [c1DeluxeTier] ∧
    getDisplayTitle c1DeluxeTier = "Essential" ∧
    customQuoteId "Essential" = some essentialQuoteId ∧
    findVariantForUserCount c1DeluxeProduct 51 = some starterQuoteId ∧
    starterQuoteId ≠ essentialQuoteId := by
  refine ⟨by decide, by decide, by decide, by decide, by decide, by decide⟩

/-- Claim C1 (amended): for every product with at least one variant and
every user count above 50, the resolver returns exactly one of the three
fixed custom-quote ids, selected solely by the label the classifier
assigns to the product's metadata with price 0 (not the label of section
4.2 computed from the tier's actual base price), independent of the
product's variant option data; zero-variant products resolve to null. -/
theorem c1_amended (p : ShopifyProduct) (v0 : Variant) (vs : List Variant)
    (hcons : p.variants = v0 :: vs) (u : ℤ) (hu : 50 < u) :
    findVariantForUserCount p u =
      customQuoteId (getDisplayTitle (resolverTierInput p)) ∧
    (findVariantForUserCount p u = some premiumQuoteId ∨
     findVariantForUserCount p u = some essentialQuoteId ∨
     findVariantForUserCount p u = some starterQuoteId) := by
  obtain ⟨pid, ptitle, pdesc, phandle, pvars⟩ := p
  have hcons2 : pvars = v0 :: vs := hcons
  subst hcons2
  have h1 := resolver_largeOrder pid ptitle pdesc phandle v0 vs u hu
  refine ⟨h1, ?_⟩
  rcases customQuoteId_of_title
      (resolverTierInput ⟨pid, ptitle, pdesc, phandle, v0 :: vs⟩) with h | h | h
  · exact Or.inl (h1.trans h)
  · exact Or.inr (Or.inl (h1.trans h))
  · exact Or.inr (Or.inr (h1.trans h))

/-- Witness for the amended C1: the `Deluxe` product at 51 users receives
the custom-quote id of its price-0 classification. -/
theorem c1_amended_witness :
    c1DeluxeProduct.variants = c1DeluxeVariant :: [] ∧ (50 : ℤ) < 51 ∧
    (findVariantForUserCount c1DeluxeProduct 51 =
       customQuoteId (getDisplayTitle (resolverTierInput c1DeluxeProduct)) ∧
     (findVariantForUserCount c1DeluxeProduct 51 = some premiumQuoteId ∨
      findVariantForUserCount c1DeluxeProduct 51 = some essentialQuoteId ∨
      findVariantForUserCount c1DeluxeProduct 51 = some starterQuoteId)) :=
  ⟨rfl, by decide, c1_amended c1DeluxeProduct c1DeluxeVariant [] rfl 51 (by decide)⟩

/-- Claim C7: for every product with at least one variant and every user
count above 50, the first-variant fallback of the large-order branch is
unreachable (one of the three hardcoded ids is always returned), and when
no handle, id or name rule matches, the price-band fallback on the
price-0 classification input yields Starter, so the Starter custom-quote
id is returned. -/
theorem c7_price_zero_classification (p : ShopifyProduct) (v0 : Variant)
    (vs : List Variant) (hcons : p.variants = v0 :: vs) (u : ℤ) (hu : 50 < u) :
    (findVariantForUserCount p u = some premiumQuoteId ∨
     findVariantForUserCount p u = some essentialQuoteId ∨
     findVariantForUserCount p u = some starterQuoteId) ∧
    (noMetadataMatch p → findVariantForUserCount p u = some starterQuoteId) := by
  obtain ⟨pid, ptitle, pdesc, phandle, pvars⟩ := p
  have hcons2 : pvars = v0 :: vs := hcons
  subst hcons2
  have h1 := resolver_largeOrder pid ptitle pdesc phandle v0 vs u hu
  constructor
  · rcases customQuoteId_of_title
        (resolverTierInput ⟨pid, ptitle, pdesc, phandle, v0 :: vs⟩) with h | h | h
    · exact Or.inl (h1.trans h)
    · exact Or.inr (Or.inl (h1.trans h))
    · exact Or.inr (Or.inr (h1.trans h))
  · intro hm
    unfold noMetadataMatch at hm
    obtain ⟨hh, hi, hn⟩ := hm
    have hsl : getDisplayTitle
        (resolverTierInput ⟨pid, ptitle, pdesc, phandle, v0 :: vs⟩) = "Starter" := by
      unfold getDisplayTitle
      rw [hh, hi, hn]
      rfl
    rw [h1, hsl]
    rfl

/-- Witness for C7: the `Deluxe` product matches no metadata rule and at
60 users receives the Starter custom-quote id. -/
theorem c7_witness :
    c1DeluxeProduct.variants = c1DeluxeVariant :: [] ∧ (50 : ℤ) < 60 ∧
    noMetadataMatch c1DeluxeProduct ∧
    findVariantForUserCount c1DeluxeProduct 60 = some starterQuoteId :=
  ⟨rfl, by decide, by decide,
   (c7_price_zero_classification c1DeluxeProduct c1DeluxeVariant [] rfl 60
     (by decide)).2 (by decide)⟩

/-- Counterexample to claim C2 as stated: on a product whose closest-match
winner has the empty string as identifier, the resolver returns null while
the reference definition returns that identifier. -/
theorem c2_counterexample :
    c2EmptyIdProduct.variants ≠ [] ∧ (1 : ℤ) ≤ 2 ∧ (2 : ℤ) ≤ 50 ∧
    specResolver c2EmptyIdProduct 2 = some "" ∧
    findVariantForUserCount c2EmptyIdProduct 2 = none ∧
    findVariantForUserCount c2EmptyIdProduct 2 ≠ specResolver c2EmptyIdProduct 2 := by
  refine ⟨by decide, by decide, by decide, by decide, by decide, by decide⟩

/-- Claim C2 (amended): for every product with at least one variant and
every user count `u` with `1 ≤ u ≤ 50`, the resolver equals the reference
definition (exact match in source order, then greatest parseable count at
most `u` with ties broken by source order, then first variant), except
that when the closest-match step selects a variant whose identifier is
the empty string the resolver returns null instead of that identifier. -/
theorem c2_amended (p : ShopifyProduct) (u : ℤ) (hne : p.variants ≠ [])
    (h1 : 1 ≤ u) (h2 : u ≤ 50) :
    findVariantForUserCount p u = specResolverCoerced p u := by
  obtain ⟨pid, ptitle, pdesc, phandle, pvars⟩ := p
  obtain ⟨v0, vs, hcons⟩ := List.exists_cons_of_ne_nil (show pvars ≠ [] from hne)
  subst hcons
  simp only [findVariantForUserCount, specResolverCoerced]
  rw [if_neg (show ¬ 50 < u by omega)]
  rw [exactMatch_eq]
  cases hE : specExactVariant (v0 :: vs) u with
  | some m => rfl
  | none =>
    rw [filter_validForCount_eq]
    rw [show extractUserCount = specKey from funext extract_eq_specKey]
    cases hs : sortByCountDesc specKey (specEligible (v0 :: vs) u) with
    | nil =>
      have hfm : firstMaxBy specKey (specEligible (v0 :: vs) u) = none := by
        rw [← head?_sortByCountDesc, hs]
        rfl
      rw [hfm]
    | cons w ws =>
      have hfm : firstMaxBy specKey (specEligible (v0 :: vs) u) = some w := by
        rw [← head?_sortByCountDesc, hs]
        rfl
      rw [hfm]

/-- Witness for the amended C2 at a closest-match scenario: 25 users on a
product whose sole variant is for 1 user. -/
theorem c2_amended_witness :
    wfProduct.variants ≠ [] ∧ (1 : ℤ) ≤ 25 ∧ (25 : ℤ) ≤ 50 ∧
    findVariantForUserCount wfProduct 25 = specResolverCoerced wfProduct 25 ∧
    findVariantForUserCount wfProduct 25 = some "v9" :=
  ⟨by decide, by decide, by decide,
   c2_amended wfProduct 25 (by decide) (by decide) (by decide), by decide⟩

/-- Counterexample to claim C5 as stated: a product with one variant
whose identifier is the empty string makes the resolver return null even
though the product has a variant, because of the null coercion at the
closest-match step. -/
theorem c5_counterexample :
    c5EmptyIdProduct.variants ≠ [] ∧
    findVariantForUserCount c5EmptyIdProduct 2 = none := by
  refine ⟨by decide, by decide⟩

/-- Claim C5 (amended): the resolver returns null on every zero-variant
product; on a product with at least one variant, all of whose variant
identifiers are nonempty, it returns some identifier for every user
count; and when the selected product has zero variants the checkout
handler never redirects, for every cart oracle. -/
theorem c5_amended (p : ShopifyProduct) (u : ℤ) :
    (p.variants = [] → findVariantForUserCount p u = none) ∧
    (p.variants ≠ [] → (∀ v ∈ p.variants, v.id ≠ "") →
      (findVariantForUserCount p u).isSome = true) ∧
    (∀ (st : ComponentState) (cc : CartOracle),
      jsFindProduct st.products st.selection.selectedAnimation = some p →
      p.variants = [] → (handleGetStarted st cc).2 = none) := by
  obtain ⟨pid, ptitle, pdesc, phandle, pvars⟩ := p
  refine ⟨?_, ?_, ?_⟩
  · intro h
    have h2 : pvars = [] := h
    subst h2
    rfl
  · intro hne hids
    obtain ⟨v0, vs, hcons⟩ := List.exists_cons_of_ne_nil (show pvars ≠ [] from hne)
    subst hcons
    by_cases hu : 50 < u
    · rcases customQuoteId_of_title
          (resolverTierInput ⟨pid, ptitle, pdesc, phandle, v0 :: vs⟩) with h | h | h <;>
        simp [findVariantForUserCount, hu, h]
    · simp only [findVariantForUserCount]
      rw [if_neg hu]
      cases hE : exactMatchVariant (v0 :: vs) u with
      | some m => rfl
      | none =>
        cases hs : sortByCountDesc extractUserCount ((v0 :: vs).filter (validForCount u)) with
        | nil => rfl
        | cons w ws =>
          have hwmem : w ∈ (v0 :: vs).filter (validForCount u) := by
            have hmem : w ∈ sortByCountDesc extractUserCount
                ((v0 :: vs).filter (validForCount u)) := by
              rw [hs]
              exact List.mem_cons_self w ws
            exact (mem_sortByCountDesc extractUserCount w _).mp hmem
          have hwid : w.id ≠ "" := hids w (List.mem_of_mem_filter hwmem)
          simp [hwid]
  · intro st cc hfindp hempty
    have hemp2 : pvars = [] := hempty
    subst hemp2
    unfold handleGetStarted getStartedResult
    cases hpk : st.animationPackages.find?
        (fun pk => pk.id == st.selection.selectedAnimation) with
    | none => rfl
    | some pkg =>
      rw [hfindp]
      rfl

/-- Witness for the amended C5: a zero-variant product resolves to null
and blocks checkout for any oracle, and a product with a nonempty-id
variant always resolves. -/
theorem c5_amended_witness :
    findVariantForUserCount c1EmptyProduct 10 = none ∧
    (findVariantForUserCount wfProduct 7).isSome = true ∧
    (handleGetStarted emptyVariantState failingOracle).2 = none :=
  ⟨(c5_amended c1EmptyProduct 10).1 rfl,
   (c5_amended wfProduct 7).2.1 (by decide) (by decide),
   (c5_amended c1EmptyProduct 10).2.2 emptyVariantState failingOracle (by decide) rfl⟩
